import Mathlib

/-!
Verification of `kinetic-stability-factor` (src/kinetic_conversion_efficiency.py),
a deterministic digital-twin simulation of the Kinetic Conversion Efficiency
metric S = Δv / ΔE.  The Python floats are modelled by exact real numbers; the
module-level constant `ENERGY_QUANTUM = 5.0` and every function of the module
are translated one-to-one below.  The `while` loop of `simulate_system` is
modelled by the iteration function `loopIter` together with the small-step
relation `LoopRun` that mirrors the loop guard, and the Python stable
`sorted(..., reverse=True)` is modelled by `List.mergeSort` (a stable merge
sort) with the reversed key comparison.
-/

namespace KineticStability

/-- Source: `ENERGY_QUANTUM = 5.0  # Joules per step`. -/
def ENERGY_QUANTUM : ℝ := 5.0

/-- Source: frozen dataclass `SystemParameters` (name, mass, efficiency,
energy_budget, abstract). -/
structure SystemParameters where
  name : String
  mass : ℝ
  efficiency : ℝ
  energy_budget : ℝ
  abstract : Bool

/-- Source: mutable dataclass `SystemState` (velocity, energy_consumed),
defaults 0.0. -/
structure SystemState where
  velocity : ℝ
  energy_consumed : ℝ

/-- The fresh state `SystemState()` with the dataclass defaults 0.0, 0.0. -/
def initState : SystemState := { velocity := 0.0, energy_consumed := 0.0 }

/-- Source: `apply_energy_step(state, params, energy_step)`.  The Python
function mutates `state` in place; here it returns the updated state.
If `state.energy_consumed >= params.energy_budget` it returns (no-op);
otherwise `usable_energy = params.efficiency * energy_step`,
`delta_v_squared = (2.0 * usable_energy) / params.mass`,
`state.velocity = math.sqrt(state.velocity**2 + delta_v_squared)`,
`state.energy_consumed += energy_step`. -/
noncomputable def apply_energy_step (state : SystemState)
    (params : SystemParameters) (energy_step : ℝ) : SystemState :=
  if state.energy_consumed ≥ params.energy_budget then
    state
  else
    let usable_energy := params.efficiency * energy_step
    let delta_v_squared := (2.0 * usable_energy) / params.mass
    { velocity := Real.sqrt (state.velocity ^ 2 + delta_v_squared),
      energy_consumed := state.energy_consumed + energy_step }

/-- Source: `kinetic_conversion_efficiency(state)`: returns `0.0` when
`state.energy_consumed <= 0.0`, else `state.velocity / state.energy_consumed`. -/
noncomputable def kinetic_conversion_efficiency (state : SystemState) : ℝ :=
  if state.energy_consumed ≤ 0.0 then 0.0
  else state.velocity / state.energy_consumed

/-- `loopIter params k` is the state after `k` iterations of the body of the
`while` loop of `simulate_system`, starting from the fresh state:
each iteration is `apply_energy_step(state, params, ENERGY_QUANTUM)`. -/
noncomputable def loopIter (params : SystemParameters) : ℕ → SystemState
  | 0 => initState
  | k + 1 => apply_energy_step (loopIter params k) params ENERGY_QUANTUM

/-- Small-step semantics of the loop
`while state.energy_consumed < params.energy_budget: apply_energy_step(...)`.
`LoopRun params s t n` holds when the loop started in state `s` executes its
body exactly `n` times and exits in state `t`. -/
inductive LoopRun (params : SystemParameters) : SystemState → SystemState → ℕ → Prop
  | exit (s : SystemState) (h : ¬ s.energy_consumed < params.energy_budget) :
      LoopRun params s s 0
  | step (s t : SystemState) (n : ℕ) (h : s.energy_consumed < params.energy_budget)
      (h2 : LoopRun params (apply_energy_step s params ENERGY_QUANTUM) t n) :
      LoopRun params s t (n + 1)

/-- The number of iterations the loop of `simulate_system` performs:
`⌈energy_budget / ENERGY_QUANTUM⌉` (0 when the budget is nonpositive).
Theorems `loopRun_loopIter_stepCount` and `loopRun_count_unique` below prove
that this is exactly the behaviour of the while loop in the source. -/
noncomputable def stepCount (params : SystemParameters) : ℕ :=
  ⌈params.energy_budget / ENERGY_QUANTUM⌉₊

/-- The result dictionary produced by `simulate_system`
(keys system, final_velocity, energy_consumed, S, abstract). -/
structure SimResult where
  system : String
  final_velocity : ℝ
  energy_consumed : ℝ
  S : ℝ
  abstract : Bool

/-- Source: `simulate_system(params)`: runs the `while` loop from the fresh
state and packages the result record.  The loop is expressed as `loopIter` at
`stepCount`; the `LoopRun` theorems below identify this with the source loop. -/
noncomputable def simulate_system (params : SystemParameters) : SimResult :=
  let state := loopIter params (stepCount params)
  { system := params.name,
    final_velocity := state.velocity,
    energy_consumed := state.energy_consumed,
    S := kinetic_conversion_efficiency state,
    abstract := params.abstract }

/-- The comparison handed to the sort in `run_experiment`:
`sorted(results, key=lambda x: x["S"], reverse=True)` orders `a` before `b`
when `a.S ≥ b.S`, keeping ties in input order (the Python sort is stable). -/
noncomputable def sLE (a b : SimResult) : Bool := decide (b.S ≤ a.S)

/-- Source: `run_experiment(systems)`: simulates each system independently and
stably sorts the results by `S` descending (`List.mergeSort` is a stable sort,
matching the Python `sorted` builtin). -/
noncomputable def run_experiment (systems : List SystemParameters) : List SimResult :=
  ((systems.map simulate_system).mergeSort sLE)

/-- First catalog entry of `benchmark_suite()` in the source. -/
def agileRobot : SystemParameters :=
  { name := "Agile Robot", mass := 0.5, efficiency := 0.70,
    energy_budget := 60.0, abstract := false }

/-- Second catalog entry of `benchmark_suite()` in the source. -/
def electricVehicle : SystemParameters :=
  { name := "Electric Vehicle", mass := 1.0, efficiency := 0.80,
    energy_budget := 100.0, abstract := false }

/-- Third catalog entry of `benchmark_suite()` in the source. -/
def aiAgent : SystemParameters :=
  { name := "AI Agent (Abstract)", mass := 1.0, efficiency := 0.50,
    energy_budget := 50.0, abstract := true }

/-- Source: `benchmark_suite()`: the fixed catalog
[Agile Robot, Electric Vehicle, AI Agent (Abstract)], in this order. -/
def benchmark_suite : List SystemParameters :=
  [agileRobot, electricVehicle, aiAgent]

/-! ### Helper lemmas about the stepper and the loop -/

/-- In-budget branch of `apply_energy_step`: the guard is not taken and both
fields are updated as in the source. -/
lemma apply_energy_step_of_lt {s : SystemState} {p : SystemParameters}
    (h : s.energy_consumed < p.energy_budget) (e : ℝ) :
    apply_energy_step s p e =
      { velocity := Real.sqrt (s.velocity ^ 2 + (2.0 * (p.efficiency * e)) / p.mass),
        energy_consumed := s.energy_consumed + e } := by
  simp [apply_energy_step, not_le.mpr h]

/-- Exhausted branch of `apply_energy_step`: the guard fires and the state is
returned unchanged. -/
lemma apply_energy_step_of_ge {s : SystemState} {p : SystemParameters}
    (h : p.energy_budget ≤ s.energy_consumed) (e : ℝ) :
    apply_energy_step s p e = s := by
  simp [apply_energy_step, h]

/-- Energy accounting of the loop: while the iteration count stays at most
`stepCount`, every iteration was in budget and each added one full quantum. -/
lemma energy_loopIter (p : SystemParameters) :
    ∀ k, k ≤ stepCount p → (loopIter p k).energy_consumed = k * ENERGY_QUANTUM := by
  intro k
  induction k with
  | zero => intro _; norm_num [loopIter, initState]
  | succ k ih =>
    intro hk
    have hk' : k < stepCount p := Nat.lt_of_succ_le hk
    have hlt : (loopIter p k).energy_consumed < p.energy_budget := by
      rw [ih hk'.le]
      have h1 : (k : ℝ) < p.energy_budget / ENERGY_QUANTUM := Nat.lt_ceil.mp hk'
      have h5 : (0 : ℝ) < ENERGY_QUANTUM := by norm_num [ENERGY_QUANTUM]
      calc (k : ℝ) * ENERGY_QUANTUM
          < p.energy_budget / ENERGY_QUANTUM * ENERGY_QUANTUM := by
            exact mul_lt_mul_of_pos_right h1 h5
        _ = p.energy_budget := div_mul_cancel₀ _ (ne_of_gt h5)
    rw [loopIter, apply_energy_step_of_lt hlt, ih hk'.le]
    push_cast
    ring

/-- Below `stepCount` iterations the loop guard still holds. -/
lemma loopIter_energy_lt (p : SystemParameters) {k : ℕ} (hk : k < stepCount p) :
    (loopIter p k).energy_consumed < p.energy_budget := by
  rw [energy_loopIter p k hk.le]
  have h1 : (k : ℝ) < p.energy_budget / ENERGY_QUANTUM := Nat.lt_ceil.mp hk
  have h5 : (0 : ℝ) < ENERGY_QUANTUM := by norm_num [ENERGY_QUANTUM]
  calc (k : ℝ) * ENERGY_QUANTUM
      < p.energy_budget / ENERGY_QUANTUM * ENERGY_QUANTUM :=
        mul_lt_mul_of_pos_right h1 h5
    _ = p.energy_budget := div_mul_cancel₀ _ (ne_of_gt h5)

/-- After `stepCount` iterations the budget is exhausted and the guard fails. -/
lemma loopIter_energy_ge (p : SystemParameters) :
    p.energy_budget ≤ (loopIter p (stepCount p)).energy_consumed := by
  rw [energy_loopIter p _ le_rfl]
  have h1 : p.energy_budget / ENERGY_QUANTUM ≤ (stepCount p : ℝ) :=
    Nat.le_ceil _
  have h5 : (0 : ℝ) < ENERGY_QUANTUM := by norm_num [ENERGY_QUANTUM]
  calc p.energy_budget
      = p.energy_budget / ENERGY_QUANTUM * ENERGY_QUANTUM :=
        (div_mul_cancel₀ _ (ne_of_gt h5)).symm
    _ ≤ (stepCount p : ℝ) * ENERGY_QUANTUM :=
        mul_le_mul_of_nonneg_right h1 h5.le

/-- The velocity recorded in the loop state is never negative: it is either the
initial `0.0` or a square root. -/
lemma velocity_loopIter_nonneg (p : SystemParameters) :
    ∀ k, 0 ≤ (loopIter p k).velocity := by
  intro k
  induction k with
  | zero => norm_num [loopIter, initState]
  | succ k ih =>
    rw [loopIter, apply_energy_step]
    split
    · exact ih
    · exact Real.sqrt_nonneg _

/-- Closed form of the velocity while within the budget: squared velocity is
additive, so after `k` in-budget steps the velocity is `√(k · Δv²)`. -/
lemma velocity_loopIter (p : SystemParameters) (hm : 0 < p.mass)
    (he : 0 ≤ p.efficiency) :
    ∀ k, k ≤ stepCount p →
      (loopIter p k).velocity =
        Real.sqrt (k * ((2.0 * (p.efficiency * ENERGY_QUANTUM)) / p.mass)) := by
  have hd : 0 ≤ (2.0 * (p.efficiency * ENERGY_QUANTUM)) / p.mass := by
    apply div_nonneg _ hm.le
    have : (0 : ℝ) ≤ ENERGY_QUANTUM := by norm_num [ENERGY_QUANTUM]
    positivity
  intro k
  induction k with
  | zero => norm_num [loopIter, initState]
  | succ k ih =>
    intro hk
    have hk' : k < stepCount p := Nat.lt_of_succ_le hk
    rw [loopIter, apply_energy_step_of_lt (loopIter_energy_lt p hk'), ih hk'.le]
    have hkd : 0 ≤ (k : ℝ) * ((2.0 * (p.efficiency * ENERGY_QUANTUM)) / p.mass) :=
      mul_nonneg (Nat.cast_nonneg k) hd
    rw [Real.sq_sqrt hkd]
    push_cast
    ring_nf

/-- From iteration `j` on, the loop runs `stepCount - j` more times and stops
at `loopIter (stepCount p)`. -/
lemma loopRun_tail (p : SystemParameters) :
    ∀ d j, j + d = stepCount p →
      LoopRun p (loopIter p j) (loopIter p (stepCount p)) d := by
  intro d
  induction d with
  | zero =>
    intro j hj
    have hj' : j = stepCount p := by omega
    subst hj'
    exact LoopRun.exit _ (not_lt.mpr (loopIter_energy_ge p))
  | succ d ih =>
    intro j hj
    have hjN : j < stepCount p := by omega
    exact LoopRun.step _ _ _ (loopIter_energy_lt p hjN) (ih (j + 1) (by omega))

/-- The while loop of the source, started in the fresh state, runs exactly
`stepCount p` iterations and stops in `loopIter p (stepCount p)`. -/
lemma loopRun_loopIter_stepCount (p : SystemParameters) :
    LoopRun p initState (loopIter p (stepCount p)) (stepCount p) :=
  loopRun_tail p (stepCount p) 0 (by omega)

/-- The loop relation is deterministic: from one start state there is a unique
final state and a unique iteration count. -/
lemma loopRun_count_unique {p : SystemParameters} {s t : SystemState} {n : ℕ}
    (h : LoopRun p s t n) :
    ∀ {t' : SystemState} {n' : ℕ}, LoopRun p s t' n' → t = t' ∧ n = n' := by
  induction h with
  | exit s h =>
    intro t' n' h'
    cases h' with
    | exit _ _ => exact ⟨rfl, rfl⟩
    | step _ _ _ hg _ => exact absurd hg h
  | step s t n hg h2 ih =>
    intro t' n' h'
    cases h' with
    | exit _ h'' => exact absurd hg h''
    | step _ _ _ _ h2' =>
      obtain ⟨ht, hn⟩ := ih h2'
      exact ⟨ht, by omega⟩

/-- Positive-energy branch of the metric. -/
lemma kce_of_pos {s : SystemState} (h : 0 < s.energy_consumed) :
    kinetic_conversion_efficiency s = s.velocity / s.energy_consumed := by
  norm_num [kinetic_conversion_efficiency, h.not_le]

/-- Nonpositive-energy branch of the metric. -/
lemma kce_of_nonpos {s : SystemState} (h : s.energy_consumed ≤ 0) :
    kinetic_conversion_efficiency s = 0 := by
  norm_num [kinetic_conversion_efficiency, h]

/-- The sort comparison is transitive. -/
lemma sLE_trans : ∀ a b c : SimResult,
    sLE a b = true → sLE b c = true → sLE a c = true := by
  intro a b c hab hbc
  simp only [sLE, decide_eq_true_eq] at hab hbc ⊢
  exact le_trans hbc hab

/-- The sort comparison is total. -/
lemma sLE_total : ∀ a b : SimResult, (sLE a b || sLE b a) = true := by
  intro a b
  simp only [sLE, Bool.or_eq_true, decide_eq_true_eq]
  exact le_total b.S a.S

/-- Comparison of two quotients of square roots by cross-multiplying and
squaring. -/
lemma sqrt_div_lt_sqrt_div (a b c d : ℝ) (ha : 0 ≤ a) (hb : 0 ≤ b)
    (hc : 0 < c) (hd : 0 < d) (h : a * d ^ 2 < b * c ^ 2) :
    Real.sqrt a / c < Real.sqrt b / d := by
  rw [div_lt_div_iff₀ hc hd]
  have h1 : Real.sqrt a * d = Real.sqrt (a * d ^ 2) := by
    rw [Real.sqrt_mul ha, Real.sqrt_sq hd.le]
  have h2 : Real.sqrt b * c = Real.sqrt (b * c ^ 2) := by
    rw [Real.sqrt_mul hb, Real.sqrt_sq hc.le]
  rw [h1, h2]
  exact Real.sqrt_lt_sqrt (by positivity) h

/-- Simulating the Agile Robot: 12 steps of 5 J, final velocity `√168`,
energy 60 J, metric `√168 / 60`. -/
lemma stepCount_agileRobot : stepCount agileRobot = 12 := by
  have : agileRobot.energy_budget / ENERGY_QUANTUM = ((12 : ℕ) : ℝ) := by
    norm_num [agileRobot, ENERGY_QUANTUM]
  rw [stepCount, this, Nat.ceil_natCast]

/-- Simulating the Electric Vehicle: 20 steps. -/
lemma stepCount_electricVehicle : stepCount electricVehicle = 20 := by
  have : electricVehicle.energy_budget / ENERGY_QUANTUM = ((20 : ℕ) : ℝ) := by
    norm_num [electricVehicle, ENERGY_QUANTUM]
  rw [stepCount, this, Nat.ceil_natCast]

/-- Simulating the AI Agent: 10 steps. -/
lemma stepCount_aiAgent : stepCount aiAgent = 10 := by
  have : aiAgent.energy_budget / ENERGY_QUANTUM = ((10 : ℕ) : ℝ) := by
    norm_num [aiAgent, ENERGY_QUANTUM]
  rw [stepCount, this, Nat.ceil_natCast]

/-- Full result record for the Agile Robot. -/
lemma simulate_agileRobot :
    simulate_system agileRobot =
      SimResult.mk "Agile Robot" (Real.sqrt 168) 60 (Real.sqrt 168 / 60) false := by
  have hE : (loopIter agileRobot 12).energy_consumed = 60 := by
    rw [energy_loopIter agileRobot 12 (by rw [stepCount_agileRobot])]
    norm_num [ENERGY_QUANTUM]
  have hV : (loopIter agileRobot 12).velocity = Real.sqrt 168 := by
    rw [velocity_loopIter agileRobot (by norm_num [agileRobot])
      (by norm_num [agileRobot]) 12 (by rw [stepCount_agileRobot])]
    norm_num [agileRobot, ENERGY_QUANTUM]
  have hS : kinetic_conversion_efficiency (loopIter agileRobot 12) =
      Real.sqrt 168 / 60 := by
    rw [kce_of_pos (by rw [hE]; norm_num), hV, hE]
  simp only [simulate_system, stepCount_agileRobot, hV, hE, hS]
  norm_num [agileRobot]

/-- Full result record for the Electric Vehicle. -/
lemma simulate_electricVehicle :
    simulate_system electricVehicle =
      SimResult.mk "Electric Vehicle" (Real.sqrt 160) 100 (Real.sqrt 160 / 100)
        false := by
  have hE : (loopIter electricVehicle 20).energy_consumed = 100 := by
    rw [energy_loopIter electricVehicle 20 (by rw [stepCount_electricVehicle])]
    norm_num [ENERGY_QUANTUM]
  have hV : (loopIter electricVehicle 20).velocity = Real.sqrt 160 := by
    rw [velocity_loopIter electricVehicle (by norm_num [electricVehicle])
      (by norm_num [electricVehicle]) 20 (by rw [stepCount_electricVehicle])]
    norm_num [electricVehicle, ENERGY_QUANTUM]
  have hS : kinetic_conversion_efficiency (loopIter electricVehicle 20) =
      Real.sqrt 160 / 100 := by
    rw [kce_of_pos (by rw [hE]; norm_num), hV, hE]
  simp only [simulate_system, stepCount_electricVehicle, hV, hE, hS]
  norm_num [electricVehicle]

/-- Full result record for the AI Agent. -/
lemma simulate_aiAgent :
    simulate_system aiAgent =
      SimResult.mk "AI Agent (Abstract)" (Real.sqrt 50) 50 (Real.sqrt 50 / 50)
        true := by
  have hE : (loopIter aiAgent 10).energy_consumed = 50 := by
    rw [energy_loopIter aiAgent 10 (by rw [stepCount_aiAgent])]
    norm_num [ENERGY_QUANTUM]
  have hV : (loopIter aiAgent 10).velocity = Real.sqrt 50 := by
    rw [velocity_loopIter aiAgent (by norm_num [aiAgent])
      (by norm_num [aiAgent]) 10 (by rw [stepCount_aiAgent])]
    norm_num [aiAgent, ENERGY_QUANTUM]
  have hS : kinetic_conversion_efficiency (loopIter aiAgent 10) =
      Real.sqrt 50 / 50 := by
    rw [kce_of_pos (by rw [hE]; norm_num), hV, hE]
  simp only [simulate_system, stepCount_aiAgent, hV, hE, hS]
  norm_num [aiAgent]

/-- The Electric Vehicle metric is below the AI Agent metric. -/
lemma s_ev_lt_ai : Real.sqrt 160 / 100 < Real.sqrt 50 / 50 :=
  sqrt_div_lt_sqrt_div 160 50 100 50 (by norm_num) (by norm_num) (by norm_num)
    (by norm_num) (by norm_num)

/-- The AI Agent metric is below the Agile Robot metric. -/
lemma s_ai_lt_ar : Real.sqrt 50 / 50 < Real.sqrt 168 / 60 :=
  sqrt_div_lt_sqrt_div 50 168 50 60 (by norm_num) (by norm_num) (by norm_num)
    (by norm_num) (by norm_num)

/-! ### Claim theorems -/

/-- C1: `apply_energy_step` leaves the state unchanged once
`energy_consumed ≥ energy_budget`; otherwise it sets the velocity to
`√(old_velocity² + 2·efficiency·energy_step / mass)` and increases
`energy_consumed` by exactly the full raw `energy_step`. -/
theorem claim1_apply_energy_step_behaviour (s : SystemState)
    (p : SystemParameters) (e : ℝ) :
    (p.energy_budget ≤ s.energy_consumed → apply_energy_step s p e = s) ∧
    (s.energy_consumed < p.energy_budget →
      apply_energy_step s p e =
        { velocity := Real.sqrt (s.velocity ^ 2 + 2 * p.efficiency * e / p.mass),
          energy_consumed := s.energy_consumed + e }) := by
  constructor
  · intro h
    exact apply_energy_step_of_ge h e
  · intro h
    rw [apply_energy_step_of_lt h]
    have harg : (2.0 * (p.efficiency * e)) / p.mass = 2 * p.efficiency * e / p.mass := by
      ring_nf
    rw [harg]

/-- Witness for C1 at concrete inputs: an exhausted state is untouched and a
fresh state is stepped. -/
theorem claim1_witness :
    ((1 : ℝ) ≤ (2 : ℝ) ∧
      apply_energy_step (SystemState.mk 0 2) (SystemParameters.mk "w" 1 1 1 false) 3 =
        SystemState.mk 0 2) ∧
    ((0 : ℝ) < (1 : ℝ) ∧
      apply_energy_step (SystemState.mk 0 0) (SystemParameters.mk "w" 1 1 1 false) 3 =
        SystemState.mk (Real.sqrt (0 ^ 2 + 2 * 1 * 3 / 1)) (0 + 3)) :=
  ⟨⟨by norm_num,
    (claim1_apply_energy_step_behaviour (SystemState.mk 0 2)
      (SystemParameters.mk "w" 1 1 1 false) 3).1 (by norm_num)⟩,
   ⟨by norm_num,
    (claim1_apply_energy_step_behaviour (SystemState.mk 0 0)
      (SystemParameters.mk "w" 1 1 1 false) 3).2 (by norm_num)⟩⟩

/-- C2: the metric returns 0 when `energy_consumed ≤ 0`, otherwise
`velocity / energy_consumed`; it is a pure function of the state, so two calls
on the same final state agree. -/
theorem claim2_kinetic_conversion_efficiency_spec (s : SystemState) :
    (s.energy_consumed ≤ 0 → kinetic_conversion_efficiency s = 0) ∧
    (0 < s.energy_consumed →
      kinetic_conversion_efficiency s = s.velocity / s.energy_consumed) ∧
    kinetic_conversion_efficiency s = kinetic_conversion_efficiency s := by
  refine ⟨?_, ?_, rfl⟩
  · intro h
    norm_num [kinetic_conversion_efficiency, h]
  · intro h
    norm_num [kinetic_conversion_efficiency, h.not_le]

/-- Witness for C2 at concrete states: a never-stepped state reports 0 and a
stepped state reports the ratio. -/
theorem claim2_witness :
    ((0 : ℝ) ≤ 0 ∧ kinetic_conversion_efficiency (SystemState.mk 3 0) = 0) ∧
    ((0 : ℝ) < 2 ∧ kinetic_conversion_efficiency (SystemState.mk 3 2) = 3 / 2) :=
  ⟨⟨by norm_num,
    (claim2_kinetic_conversion_efficiency_spec (SystemState.mk 3 0)).1 (by norm_num)⟩,
   ⟨by norm_num,
    (claim2_kinetic_conversion_efficiency_spec (SystemState.mk 3 2)).2.1 (by norm_num)⟩⟩

/-- C3: with a positive budget, the reported `energy_consumed` of
`simulate_system` lies in `[energy_budget, energy_budget + ENERGY_QUANTUM)`. -/
theorem claim3_energy_window (p : SystemParameters) (h : 0 < p.energy_budget) :
    p.energy_budget ≤ (simulate_system p).energy_consumed ∧
    (simulate_system p).energy_consumed < p.energy_budget + ENERGY_QUANTUM := by
  refine ⟨loopIter_energy_ge p, ?_⟩
  show (loopIter p (stepCount p)).energy_consumed < p.energy_budget + ENERGY_QUANTUM
  rw [energy_loopIter p _ le_rfl]
  have h5 : (0 : ℝ) < ENERGY_QUANTUM := by norm_num [ENERGY_QUANTUM]
  have h1 : ((stepCount p : ℕ) : ℝ) < p.energy_budget / ENERGY_QUANTUM + 1 :=
    Nat.ceil_lt_add_one (div_nonneg h.le h5.le)
  calc (stepCount p : ℝ) * ENERGY_QUANTUM
      < (p.energy_budget / ENERGY_QUANTUM + 1) * ENERGY_QUANTUM :=
        mul_lt_mul_of_pos_right h1 h5
    _ = p.energy_budget + ENERGY_QUANTUM := by field_simp

/-- Witness for C3 at a concrete system with budget 1. -/
theorem claim3_witness :
    (0 : ℝ) < 1 ∧
    (1 : ℝ) ≤ (simulate_system (SystemParameters.mk "w" 1 1 1 false)).energy_consumed :=
  ⟨by norm_num,
   (claim3_energy_window (SystemParameters.mk "w" 1 1 1 false) (by norm_num)).1⟩

/-- C4: the `while` loop of `simulate_system` terminates, running exactly
`⌈energy_budget / ENERGY_QUANTUM⌉` iterations, each of which adds the fixed
positive quantum to `energy_consumed`; any complete run of the loop has that
iteration count. -/
theorem claim4_loop_terminates_exactly (p : SystemParameters)
    (_h : 0 < p.energy_budget) :
    LoopRun p initState (loopIter p (stepCount p)) (stepCount p) ∧
    stepCount p = ⌈p.energy_budget / ENERGY_QUANTUM⌉₊ ∧
    (∀ k, k < stepCount p →
      (loopIter p (k + 1)).energy_consumed =
        (loopIter p k).energy_consumed + ENERGY_QUANTUM) ∧
    (∀ (t : SystemState) (n : ℕ), LoopRun p initState t n →
      n = ⌈p.energy_budget / ENERGY_QUANTUM⌉₊) := by
  refine ⟨loopRun_loopIter_stepCount p, rfl, ?_, ?_⟩
  · intro k hk
    rw [energy_loopIter p (k + 1) hk, energy_loopIter p k hk.le]
    push_cast
    ring
  · intro t n hn
    exact ((loopRun_count_unique (loopRun_loopIter_stepCount p) hn).2).symm

/-- Witness for C4 at a concrete system with budget 1: the loop relation holds
for the computed count. -/
theorem claim4_witness :
    (0 : ℝ) < 1 ∧
    LoopRun (SystemParameters.mk "w" 1 1 1 false) initState
      (loopIter (SystemParameters.mk "w" 1 1 1 false)
        (stepCount (SystemParameters.mk "w" 1 1 1 false)))
      (stepCount (SystemParameters.mk "w" 1 1 1 false)) :=
  ⟨by norm_num,
   (claim4_loop_terminates_exactly (SystemParameters.mk "w" 1 1 1 false) (by norm_num)).1⟩

/-- C6: with positive mass and efficiency and a nonnegative step, one call to
`apply_energy_step` never decreases the velocity, and throughout a run the
velocity stays nonnegative from its initial value 0. -/
theorem claim6_velocity_monotone (p : SystemParameters) (hm : 0 < p.mass)
    (he : 0 < p.efficiency) (s : SystemState) (e : ℝ) (hstep : 0 ≤ e) :
    s.velocity ≤ (apply_energy_step s p e).velocity ∧
    ∀ k, 0 ≤ (loopIter p k).velocity := by
  refine ⟨?_, velocity_loopIter_nonneg p⟩
  by_cases hb : p.energy_budget ≤ s.energy_consumed
  · rw [apply_energy_step_of_ge hb]
  · push_neg at hb
    rw [apply_energy_step_of_lt hb]
    show s.velocity ≤ Real.sqrt (s.velocity ^ 2 + (2.0 * (p.efficiency * e)) / p.mass)
    have h1 : (0 : ℝ) ≤ p.efficiency * e := mul_nonneg he.le hstep
    have hd : (0 : ℝ) ≤ (2.0 * (p.efficiency * e)) / p.mass :=
      div_nonneg (mul_nonneg (by norm_num) h1) hm.le
    calc s.velocity ≤ |s.velocity| := le_abs_self _
      _ = Real.sqrt (s.velocity ^ 2) := (Real.sqrt_sq_eq_abs _).symm
      _ ≤ Real.sqrt (s.velocity ^ 2 + (2.0 * (p.efficiency * e)) / p.mass) :=
          Real.sqrt_le_sqrt (by linarith)

/-- Witness for C6 at a concrete step of the fresh state. -/
theorem claim6_witness :
    (0 : ℝ) < 1 ∧ (0 : ℝ) < 1 ∧ (0 : ℝ) ≤ 3 ∧
    (0 : ℝ) ≤ (apply_energy_step (SystemState.mk 0 0)
      (SystemParameters.mk "w" 1 1 1 false) 3).velocity :=
  ⟨by norm_num, by norm_num, by norm_num,
   (claim6_velocity_monotone (SystemParameters.mk "w" 1 1 1 false) (by norm_num)
     (by norm_num) (SystemState.mk 0 0) 3 (by norm_num)).1⟩

/-- C8: with a nonpositive budget the loop body runs zero times and the result
record is all-zero (velocity 0, energy 0, S = 0), with no error. -/
theorem claim8_nonpositive_budget (p : SystemParameters)
    (h : p.energy_budget ≤ 0) :
    stepCount p = 0 ∧
    simulate_system p =
      { system := p.name, final_velocity := 0, energy_consumed := 0,
        S := 0, abstract := p.abstract } ∧
    LoopRun p initState initState 0 := by
  have h0 : stepCount p = 0 := by
    apply Nat.ceil_eq_zero.mpr
    have h5 : (0 : ℝ) ≤ ENERGY_QUANTUM := by norm_num [ENERGY_QUANTUM]
    exact div_nonpos_iff.mpr (Or.inr ⟨h, h5⟩)
  have hinit : initState.energy_consumed = 0 := by norm_num [initState]
  refine ⟨h0, ?_, LoopRun.exit _ (not_lt.mpr (by rw [hinit]; exact h))⟩
  simp only [simulate_system, h0, loopIter]
  norm_num [initState, kinetic_conversion_efficiency, SimResult.mk.injEq]

/-- Witness for C8 at a concrete system with budget 0. -/
theorem claim8_witness :
    (0 : ℝ) ≤ 0 ∧ stepCount (SystemParameters.mk "z" 1 1 0 false) = 0 :=
  ⟨by norm_num,
   (claim8_nonpositive_budget (SystemParameters.mk "z" 1 1 0 false) (by norm_num)).1⟩

/-- C9: applying an energy step of size zero is an identity on the state when
the state is in budget, the velocity is nonnegative and the mass positive. -/
theorem claim9_zero_step_identity (s : SystemState) (p : SystemParameters)
    (hv : 0 ≤ s.velocity) (hb : s.energy_consumed < p.energy_budget)
    (_hm : 0 < p.mass) :
    apply_energy_step s p 0 = s := by
  cases s with
  | mk v en =>
    rw [apply_energy_step_of_lt hb]
    norm_num [SystemState.mk.injEq]
    exact Real.sqrt_sq hv

/-- Witness for C9 at a concrete in-budget state. -/
theorem claim9_witness :
    (0 : ℝ) ≤ 1 ∧ (0 : ℝ) < 1 ∧
    apply_energy_step (SystemState.mk 1 0) (SystemParameters.mk "w" 1 1 1 false) 0 =
      SystemState.mk 1 0 :=
  ⟨by norm_num, by norm_num,
   claim9_zero_step_identity (SystemState.mk 1 0) (SystemParameters.mk "w" 1 1 1 false)
     (by norm_num) (by norm_num) (by norm_num)⟩

/-- C10: closed form of the loop: after `k` in-budget steps the velocity is
`√(2·efficiency·quantum·k / mass)` and the energy is `k·quantum`; hence the
final velocity of `simulate_system` is that expression at
`K = ⌈energy_budget / quantum⌉`. -/
theorem claim10_closed_form (p : SystemParameters) (hm : 0 < p.mass)
    (he : 0 < p.efficiency) :
    (∀ k, k ≤ stepCount p →
      (loopIter p k).velocity =
        Real.sqrt (2 * p.efficiency * ENERGY_QUANTUM * k / p.mass) ∧
      (loopIter p k).energy_consumed = k * ENERGY_QUANTUM) ∧
    (simulate_system p).final_velocity =
      Real.sqrt (2 * p.efficiency * ENERGY_QUANTUM *
        (⌈p.energy_budget / ENERGY_QUANTUM⌉₊ : ℝ) / p.mass) := by
  have hv : ∀ k, k ≤ stepCount p →
      (loopIter p k).velocity =
        Real.sqrt (2 * p.efficiency * ENERGY_QUANTUM * k / p.mass) := by
    intro k hk
    rw [velocity_loopIter p hm he.le k hk]
    congr 1
    ring
  refine ⟨fun k hk => ⟨hv k hk, energy_loopIter p k hk⟩, ?_⟩
  show (loopIter p (stepCount p)).velocity = _
  exact hv _ le_rfl

/-- Witness for C10: the Agile Robot final velocity matches the closed form. -/
theorem claim10_witness :
    (0 : ℝ) < 0.5 ∧ (0 : ℝ) < 0.70 ∧
    (simulate_system agileRobot).final_velocity =
      Real.sqrt (2 * 0.70 * ENERGY_QUANTUM *
        (⌈(60.0 : ℝ) / ENERGY_QUANTUM⌉₊ : ℝ) / 0.5) :=
  ⟨by norm_num, by norm_num,
   (claim10_closed_form agileRobot (by norm_num [agileRobot])
     (by norm_num [agileRobot])).2⟩

/-- C5: the list returned by `run_experiment` is sorted by the metric `S` in
descending order, and results with equal `S` keep the relative order their
systems had in the input list (the sort is stable). -/
theorem claim5_sorted_descending_stable (systems : List SystemParameters) :
    List.Pairwise (fun a b : SimResult => b.S ≤ a.S) (run_experiment systems) ∧
    (∀ a b : SimResult,
      List.Sublist [a, b] (systems.map simulate_system) → a.S = b.S →
      List.Sublist [a, b] (run_experiment systems)) := by
  constructor
  · have h := List.sorted_mergeSort sLE_trans sLE_total (systems.map simulate_system)
    exact h.imp fun hab => by simpa [sLE] using hab
  · intro a b hsub heq
    have hp : List.Pairwise (fun x y : SimResult => sLE x y = true) [a, b] := by
      simp [sLE, heq.ge]
    exact List.sublist_mergeSort sLE_trans sLE_total hp hsub

/-- Witness for C5: two copies of the same system tie on `S` and stay in input
order in the output. -/
theorem claim5_witness :
    List.Sublist
      [simulate_system (SystemParameters.mk "w" 1 1 1 false),
       simulate_system (SystemParameters.mk "w" 1 1 1 false)]
      (List.map simulate_system
        [SystemParameters.mk "w" 1 1 1 false, SystemParameters.mk "w" 1 1 1 false]) ∧
    List.Sublist
      [simulate_system (SystemParameters.mk "w" 1 1 1 false),
       simulate_system (SystemParameters.mk "w" 1 1 1 false)]
      (run_experiment
        [SystemParameters.mk "w" 1 1 1 false, SystemParameters.mk "w" 1 1 1 false]) :=
  ⟨List.Sublist.refl _,
   (claim5_sorted_descending_stable
      [SystemParameters.mk "w" 1 1 1 false, SystemParameters.mk "w" 1 1 1 false]).2
     (simulate_system (SystemParameters.mk "w" 1 1 1 false))
     (simulate_system (SystemParameters.mk "w" 1 1 1 false))
     (List.Sublist.refl _) rfl⟩

/-- C7: the fixed benchmark reproduces the concrete scenario of the spec: the Agile Robot
takes exactly 12 steps, ends with energy 60 J, final velocity `√168`
(≈ 12.961481) and `S = √168/60` (≈ 0.216025), and `run_experiment` orders the
catalog Agile Robot, then AI Agent (Abstract), then Electric Vehicle. -/
theorem claim7_benchmark_scenario :
    stepCount agileRobot = 12 ∧
    simulate_system agileRobot =
      SimResult.mk "Agile Robot" (Real.sqrt 168) 60 (Real.sqrt 168 / 60) false ∧
    |Real.sqrt 168 - 12.961481| < 0.000001 ∧
    |Real.sqrt 168 / 60 - 0.216025| < 0.000001 ∧
    (run_experiment benchmark_suite).map SimResult.system =
      ["Agile Robot", "AI Agent (Abstract)", "Electric Vehicle"] := by
  have hlo : (12.961480 : ℝ) < Real.sqrt 168 :=
    (Real.lt_sqrt (by norm_num)).mpr (by norm_num)
  have hhi : Real.sqrt 168 < 12.961482 :=
    (Real.sqrt_lt' (by norm_num)).mpr (by norm_num)
  refine ⟨stepCount_agileRobot, simulate_agileRobot, ?_, ?_, ?_⟩
  · rw [abs_sub_lt_iff]
    constructor <;> nlinarith
  · rw [abs_sub_lt_iff]
    constructor <;> nlinarith
  · have h1 : sLE (SimResult.mk "Agile Robot" (Real.sqrt 168) 60 (Real.sqrt 168 / 60) false)
        (SimResult.mk "Electric Vehicle" (Real.sqrt 160) 100 (Real.sqrt 160 / 100) false)
        = true := by
      simp only [sLE, decide_eq_true_eq]
      exact (s_ev_lt_ai.trans s_ai_lt_ar).le
    have h2 : sLE (SimResult.mk "Agile Robot" (Real.sqrt 168) 60 (Real.sqrt 168 / 60) false)
        (SimResult.mk "AI Agent (Abstract)" (Real.sqrt 50) 50 (Real.sqrt 50 / 50) true)
        = true := by
      simp only [sLE, decide_eq_true_eq]
      exact s_ai_lt_ar.le
    have h3 : sLE (SimResult.mk "Electric Vehicle" (Real.sqrt 160) 100 (Real.sqrt 160 / 100) false)
        (SimResult.mk "AI Agent (Abstract)" (Real.sqrt 50) 50 (Real.sqrt 50 / 50) true)
        = false := by
      simp only [sLE, decide_eq_false_iff_not]
      exact not_le.mpr s_ev_lt_ai
    have hrun : run_experiment benchmark_suite =
        [SimResult.mk "Agile Robot" (Real.sqrt 168) 60 (Real.sqrt 168 / 60) false,
         SimResult.mk "AI Agent (Abstract)" (Real.sqrt 50) 50 (Real.sqrt 50 / 50) true,
         SimResult.mk "Electric Vehicle" (Real.sqrt 160) 100 (Real.sqrt 160 / 100) false] := by
      show (benchmark_suite.map simulate_system).mergeSort sLE = _
      rw [show benchmark_suite.map simulate_system =
          [SimResult.mk "Agile Robot" (Real.sqrt 168) 60 (Real.sqrt 168 / 60) false,
           SimResult.mk "Electric Vehicle" (Real.sqrt 160) 100 (Real.sqrt 160 / 100) false,
           SimResult.mk "AI Agent (Abstract)" (Real.sqrt 50) 50 (Real.sqrt 50 / 50) true]
        from by
          simp [benchmark_suite, simulate_agileRobot, simulate_electricVehicle,
            simulate_aiAgent]]
      simp [List.mergeSort, List.merge, h1, h2, h3]
    rw [hrun]
    simp

end KineticStability
